import Mathlib

/-!
Shallow embedding of the DCGAN starter notebook
(src/DCGAN-Generator-Discriminator-Starter.ipynb).

The notebook defines four torch modules: `ConvBlock`, `Discriminator`,
`DeconvBlock` and `Generator`.  A module built from `nn.Sequential` is
embedded as a `List LayerSpec` recording the layers in order, exactly as the
constructor of the module builds them.  Two interpreters give the semantics of
a layer list: `seqShape` is the shape semantics (which input shapes the
forward pass accepts, and the shape it returns — `none` models the runtime
shape-mismatch exception of the framework), and `seqVal` is the value
semantics over real-valued tensors.  `Generator.forward` is not a Sequential
in the source, so it is embedded as the explicit composition written in its
`forward` method, in the same order.
-/

/-- PyTorch sigmoid: `1 / (1 + exp (-x))`. -/
noncomputable def sigmoid (x : ℝ) : ℝ := 1 / (1 + Real.exp (-x))

/-- One torch layer together with its hyperparameters, as recorded when a
module constructor appends it to an `nn.Sequential`. -/
inductive LayerSpec where
  | conv2d (in_channels out_channels kernel_size stride padding : ℕ)
  | convT2d (in_channels out_channels kernel_size stride padding : ℕ)
  | batchNorm2d (num_features : ℕ)
  | batchNorm1d (num_features : ℕ)
  | leakyReLU
  | tanh
  | sigmoid
  | flatten
  | linear (in_features out_features : ℕ)
deriving DecidableEq

/-- Spatial output size of `nn.Conv2d` (dilation 1):
`floor((size + 2p - k) / s) + 1`. -/
def conv2dOut (size kernel_size stride padding : ℕ) : ℕ :=
  (size + 2 * padding - kernel_size) / stride + 1

/-- Spatial output size of `nn.ConvTranspose2d` (dilation 1, output_padding 0):
`(size - 1) * s + k - 2p`. -/
def convT2dOut (size kernel_size stride padding : ℕ) : ℕ :=
  (size - 1) * stride + kernel_size - 2 * padding

/-- Shape semantics of a single layer: `some` of the output shape when the
layer accepts the input shape, `none` when the framework would raise a
runtime error (rank or dimension mismatch, or an empty output size). -/
def layerShape : LayerSpec → List ℕ → Option (List ℕ)
  | .conv2d ic oc k s p, [B, C, H, W] =>
      if C = ic ∧ k ≤ H + 2 * p ∧ k ≤ W + 2 * p ∧ 1 ≤ s then
        some [B, oc, conv2dOut H k s p, conv2dOut W k s p]
      else none
  | .convT2d ic oc k s p, [B, C, H, W] =>
      if C = ic ∧ 1 ≤ H ∧ 1 ≤ W ∧ 2 * p + 1 ≤ (H - 1) * s + k ∧
          2 * p + 1 ≤ (W - 1) * s + k then
        some [B, oc, convT2dOut H k s p, convT2dOut W k s p]
      else none
  | .batchNorm2d C, [B, C2, H, W] => if C2 = C then some [B, C2, H, W] else none
  | .batchNorm1d C, [B, C2] => if C2 = C then some [B, C2] else none
  | .batchNorm1d C, [B, C2, L] => if C2 = C then some [B, C2, L] else none
  | .leakyReLU, s => some s
  | .tanh, s => some s
  | .sigmoid, s => some s
  | .flatten, B :: d :: rest => some [B, (d :: rest).foldr (· * ·) 1]
  | .linear ifeat ofeat, d :: rest =>
      if (d :: rest).getLastD 0 = ifeat then
        some ((d :: rest).dropLast ++ [ofeat])
      else none
  | _, _ => none

/-- Shape semantics of an `nn.Sequential`: thread the input shape through the
layers in order, propagating failure. -/
def seqShape : List LayerSpec → List ℕ → Option (List ℕ)
  | [], s => some s
  | l :: ls, s => (layerShape l s).bind (seqShape ls)

/-- ConvBlock from the notebook.  With `batch_norm` it builds
`Conv2d(in, out, kernel_size, stride = 2) → BatchNorm2d(out) → LeakyReLU`;
without it, `Conv2d(in, out, kernel_size)` (torch default stride 1,
padding 0) followed by `LeakyReLU`. -/
def ConvBlock (in_channels out_channels kernel_size : ℕ) (batch_norm : Bool) :
    List LayerSpec :=
  if batch_norm then
    [.conv2d in_channels out_channels kernel_size 2 0,
     .batchNorm2d out_channels, .leakyReLU]
  else
    [.conv2d in_channels out_channels kernel_size 1 0, .leakyReLU]

/-- DeconvBlock from the notebook.  Note: in both branches the source passes
the literal `stride = 2` to `nn.ConvTranspose2d`, never the `stride`
argument of the constructor, so that argument is recorded nowhere.  With
`batch_norm` the activation is `LeakyReLU`, without it `Tanh`. -/
def DeconvBlock (in_channels out_channels kernel_size stride padding : ℕ)
    (batch_norm : Bool) : List LayerSpec :=
  if batch_norm then
    [.convT2d in_channels out_channels kernel_size 2 padding,
     .batchNorm2d out_channels, .leakyReLU]
  else
    [.convT2d in_channels out_channels kernel_size 2 padding, .tanh]

/-- Discriminator from the notebook: the layer list built by its
constructor.  The `conv_dim` argument is not used anywhere in the body of
`Discriminator.__init__`; all filter counts are literal. -/
def Discriminator (conv_dim : ℕ) : List LayerSpec :=
  ConvBlock 3 32 4 false ++ ConvBlock 32 64 3 true ++ ConvBlock 64 128 4 true ++
    ConvBlock 128 256 4 true ++ [.flatten, .linear 1024 1, .sigmoid]

/-- Shape semantics of `Discriminator.forward` (one pass through the
Sequential). -/
def Discriminator.forwardShape (conv_dim : ℕ) (s : List ℕ) : Option (List ℕ) :=
  seqShape (Discriminator conv_dim) s

/-- Generator module state: the submodules assigned in
`Generator.__init__`, in declaration order.  `fc1` is
`nn.Linear(latent_dim, 8192)`, `norm1` is `nn.BatchNorm1d(8192)`, and the
six `tconv` fields are DeconvBlock instances. -/
structure Generator where
  fc1_in : ℕ
  fc1_out : ℕ
  norm1 : ℕ
  tconv1 : List LayerSpec
  tconv2 : List LayerSpec
  tconv3 : List LayerSpec
  tconv4 : List LayerSpec
  tconv5 : List LayerSpec
  tconv6 : List LayerSpec

/-- Generator constructor from the notebook.  The `conv_dim` argument is not
used anywhere in the body of `Generator.__init__`; all channel counts are
literal. -/
def Generator.init (latent_dim conv_dim : ℕ) : Generator where
  fc1_in := latent_dim
  fc1_out := 8192
  norm1 := 8192
  tconv1 := DeconvBlock 512 256 4 2 0 true
  tconv2 := DeconvBlock 256 128 4 2 0 true
  tconv3 := DeconvBlock 128 64 4 1 0 true
  tconv4 := DeconvBlock 64 32 4 1 0 true
  tconv5 := DeconvBlock 32 16 4 1 0 true
  tconv6 := DeconvBlock 16 3 4 1 1 false

/-- Shape semantics of `x.view(x.size(0), 512, 4, 4)`: requires at least one
dimension and the total element count of `x` to equal `B * 512 * 4 * 4`. -/
def view_512_4_4_shape (s : List ℕ) : Option (List ℕ) :=
  match s with
  | [] => none
  | B :: rest =>
      if (B :: rest).foldr (· * ·) 1 = B * 512 * 4 * 4 then
        some [B, 512, 4, 4]
      else none

/-- Shape semantics of `Generator.forward`: fc1, norm1, LeakyReLU, the view
to `(B, 512, 4, 4)`, then the six DeconvBlocks, in the order written in the
source. -/
def Generator.forwardShape (g : Generator) (s : List ℕ) : Option (List ℕ) :=
  (layerShape (.linear g.fc1_in g.fc1_out) s).bind fun s1 =>
  (layerShape (.batchNorm1d g.norm1) s1).bind fun s2 =>
  (layerShape .leakyReLU s2).bind fun s3 =>
  (view_512_4_4_shape s3).bind fun s4 =>
  (seqShape g.tconv1 s4).bind fun s5 =>
  (seqShape g.tconv2 s5).bind fun s6 =>
  (seqShape g.tconv3 s6).bind fun s7 =>
  (seqShape g.tconv4 s7).bind fun s8 =>
  (seqShape g.tconv5 s8).bind fun s9 =>
  seqShape g.tconv6 s9

/-- A real-valued tensor: a shape and a value at every multi-index.  Entries
at indices outside the shape are irrelevant to the semantics. -/
structure Tensor where
  shape : List ℕ
  val : List ℕ → ℝ

/-- Learned parameters a layer may carry: a rank-4 kernel (conv layers), a
matrix (linear layers), a bias vector, and the affine weight and bias of a
batch-norm layer. -/
structure LayerParams where
  w4 : ℕ → ℕ → ℕ → ℕ → ℝ
  w2 : ℕ → ℕ → ℝ
  bias : ℕ → ℝ
  gamma : ℕ → ℝ
  beta : ℕ → ℝ

/-- All-zero parameters, used to instantiate universally quantified
statements at a concrete model. -/
noncomputable def LayerParams.zero : LayerParams :=
  ⟨fun _ _ _ _ => 0, fun _ _ => 0, fun _ => 0, fun _ => 0, fun _ => 0⟩

/-- Zero-padded read of a 4-D tensor, as performed inside `nn.Conv2d`:
coordinates `u, v` range over the padded plane, and positions outside the
actual `H × W` plane read as `0`. -/
noncomputable def padVal (x : Tensor) (b c u v padding H W : ℕ) : ℝ :=
  if padding ≤ u ∧ u < H + padding ∧ padding ≤ v ∧ v < W + padding then
    x.val [b, c, u - padding, v - padding]
  else 0

/-- Value semantics of `nn.Conv2d` on a 4-D input (cross-correlation, as in
torch): output at `(b, co, i, j)` is the bias plus the kernel window dotted
with the zero-padded input at stride offsets. -/
noncomputable def conv2dVal (in_channels out_channels kernel_size stride padding : ℕ)
    (p : LayerParams) (x : Tensor) : Tensor :=
  match x.shape with
  | [B, _C, H, W] =>
      { shape := [B, out_channels, conv2dOut H kernel_size stride padding,
                  conv2dOut W kernel_size stride padding]
        val := fun idx =>
          match idx with
          | [b, co, i, j] =>
              p.bias co + ∑ ci ∈ Finset.range in_channels,
                ∑ ki ∈ Finset.range kernel_size, ∑ kj ∈ Finset.range kernel_size,
                  p.w4 co ci ki kj *
                    padVal x b ci (i * stride + ki) (j * stride + kj) padding H W
          | _ => 0 }
  | _ => x

/-- Value semantics of `nn.ConvTranspose2d` on a 4-D input (scatter form):
output at `(b, co, i, j)` sums every kernel tap `(ki, kj)` of every input
position `(h, w)` that lands on `(i, j)` after striding and padding. -/
noncomputable def convT2dVal (in_channels out_channels kernel_size stride padding : ℕ)
    (p : LayerParams) (x : Tensor) : Tensor :=
  match x.shape with
  | [B, _C, H, W] =>
      { shape := [B, out_channels, convT2dOut H kernel_size stride padding,
                  convT2dOut W kernel_size stride padding]
        val := fun idx =>
          match idx with
          | [b, co, i, j] =>
              p.bias co + ∑ ci ∈ Finset.range in_channels,
                ∑ h ∈ Finset.range H, ∑ w ∈ Finset.range W,
                  ∑ ki ∈ Finset.range kernel_size, ∑ kj ∈ Finset.range kernel_size,
                    if h * stride + ki = i + padding ∧ w * stride + kj = j + padding then
                      p.w4 ci co ki kj * x.val [b, ci, h, w]
                    else 0
          | _ => 0 }
  | _ => x

/-- Value semantics of `nn.BatchNorm2d` in training mode (as in the
notebook, whose modules are never switched to eval mode): normalize each
channel by the mean and biased variance of the current batch over
`(B, H, W)`, with `eps = 1e-5`, then apply the affine weight and bias. -/
noncomputable def batchNorm2dVal (num_features : ℕ) (p : LayerParams) (x : Tensor) :
    Tensor :=
  match x.shape with
  | [B, C, H, W] =>
      { shape := [B, C, H, W]
        val := fun idx =>
          match idx with
          | [b, c, i, j] =>
              let n : ℝ := (B * H * W : ℕ)
              let mean := (∑ b2 ∈ Finset.range B, ∑ i2 ∈ Finset.range H,
                ∑ j2 ∈ Finset.range W, x.val [b2, c, i2, j2]) / n
              let var := (∑ b2 ∈ Finset.range B, ∑ i2 ∈ Finset.range H,
                ∑ j2 ∈ Finset.range W, (x.val [b2, c, i2, j2] - mean) ^ 2) / n
              p.gamma c * ((x.val [b, c, i, j] - mean) /
                Real.sqrt (var + 1 / 100000)) + p.beta c
          | _ => 0 }
  | _ => x

/-- Value semantics of `nn.BatchNorm1d` in training mode, on 2-D input
`(B, C)` or 3-D input `(B, C, L)`. -/
noncomputable def batchNorm1dVal (num_features : ℕ) (p : LayerParams) (x : Tensor) :
    Tensor :=
  match x.shape with
  | [B, C] =>
      { shape := [B, C]
        val := fun idx =>
          match idx with
          | [b, c] =>
              let n : ℝ := (B : ℕ)
              let mean := (∑ b2 ∈ Finset.range B, x.val [b2, c]) / n
              let var := (∑ b2 ∈ Finset.range B, (x.val [b2, c] - mean) ^ 2) / n
              p.gamma c * ((x.val [b, c] - mean) /
                Real.sqrt (var + 1 / 100000)) + p.beta c
          | _ => 0 }
  | [B, C, L] =>
      { shape := [B, C, L]
        val := fun idx =>
          match idx with
          | [b, c, l] =>
              let n : ℝ := (B * L : ℕ)
              let mean := (∑ b2 ∈ Finset.range B, ∑ l2 ∈ Finset.range L,
                x.val [b2, c, l2]) / n
              let var := (∑ b2 ∈ Finset.range B, ∑ l2 ∈ Finset.range L,
                (x.val [b2, c, l2] - mean) ^ 2) / n
              p.gamma c * ((x.val [b, c, l] - mean) /
                Real.sqrt (var + 1 / 100000)) + p.beta c
          | _ => 0 }
  | _ => x

/-- Value semantics of `nn.LeakyReLU` (default negative slope `0.01`),
applied elementwise. -/
noncomputable def leakyReluVal (x : Tensor) : Tensor where
  shape := x.shape
  val := fun idx => if x.val idx < 0 then (1 / 100) * x.val idx else x.val idx

/-- Value semantics of `nn.Tanh`, applied elementwise. -/
noncomputable def tanhVal (x : Tensor) : Tensor where
  shape := x.shape
  val := fun idx => Real.tanh (x.val idx)

/-- Value semantics of `nn.Sigmoid`, applied elementwise. -/
noncomputable def sigmoidVal (x : Tensor) : Tensor where
  shape := x.shape
  val := fun idx => sigmoid (x.val idx)

/-- Row-major decoding of a flat offset into a multi-index for the given
dimension list. -/
def decodeIdx (n : ℕ) : List ℕ → List ℕ
  | [] => []
  | d :: ds =>
      (n / ds.foldr (· * ·) 1) % d :: decodeIdx (n % ds.foldr (· * ·) 1) ds

/-- Value semantics of `nn.Flatten` (start_dim 1): collapse all dimensions
after the batch dimension, reading the input in row-major order. -/
noncomputable def flattenVal (x : Tensor) : Tensor :=
  match x.shape with
  | B :: d :: rest =>
      { shape := [B, (d :: rest).foldr (· * ·) 1]
        val := fun idx =>
          match idx with
          | [b, n] => x.val (b :: decodeIdx n (d :: rest))
          | _ => 0 }
  | _ => x

/-- Value semantics of `x.view(x.size(0), 512, 4, 4)`: reinterpret the
row-major element sequence of `x` with shape `(B, 512, 4, 4)`. -/
noncomputable def view_512_4_4_val (x : Tensor) : Tensor :=
  match x.shape with
  | B :: rest =>
      { shape := [B, 512, 4, 4]
        val := fun idx =>
          match idx with
          | [b, c, i, j] =>
              x.val (decodeIdx (((b * 512 + c) * 4 + i) * 4 + j) (B :: rest))
          | _ => 0 }
  | [] => x

/-- Value semantics of `nn.Linear`: acts on the last dimension, keeping all
leading dimensions. -/
noncomputable def linearVal (in_features out_features : ℕ) (p : LayerParams)
    (x : Tensor) : Tensor :=
  match x.shape with
  | [] => x
  | _ :: _ =>
      { shape := x.shape.dropLast ++ [out_features]
        val := fun idx =>
          p.bias (idx.getLastD 0) + ∑ i ∈ Finset.range in_features,
            p.w2 (idx.getLastD 0) i * x.val (idx.dropLast ++ [i]) }

/-- Value semantics of a single layer. -/
noncomputable def layerVal : LayerSpec → LayerParams → Tensor → Tensor
  | .conv2d ic oc k s p, q, x => conv2dVal ic oc k s p q x
  | .convT2d ic oc k s p, q, x => convT2dVal ic oc k s p q x
  | .batchNorm2d C, q, x => batchNorm2dVal C q x
  | .batchNorm1d C, q, x => batchNorm1dVal C q x
  | .leakyReLU, _, x => leakyReluVal x
  | .tanh, _, x => tanhVal x
  | .sigmoid, _, x => sigmoidVal x
  | .flatten, _, x => flattenVal x
  | .linear i o, q, x => linearVal i o q x

/-- Value semantics of an `nn.Sequential`: apply the layers in order, the
layer at position `n` reading its parameters from `env n`. -/
noncomputable def seqVal : List LayerSpec → (ℕ → LayerParams) → Tensor → Tensor
  | [], _, x => x
  | l :: ls, env, x => seqVal ls (fun n => env (n + 1)) (layerVal l (env 0) x)

/-- Value semantics of `Discriminator.forward`. -/
noncomputable def Discriminator.forwardVal (conv_dim : ℕ) (env : ℕ → LayerParams)
    (x : Tensor) : Tensor :=
  seqVal (Discriminator conv_dim) env x

/-- Learned parameters of the Generator submodules, one entry per submodule
assigned in `Generator.__init__`. -/
structure GenParams where
  fc1 : LayerParams
  norm1 : LayerParams
  tconv1 : ℕ → LayerParams
  tconv2 : ℕ → LayerParams
  tconv3 : ℕ → LayerParams
  tconv4 : ℕ → LayerParams
  tconv5 : ℕ → LayerParams
  tconv6 : ℕ → LayerParams

/-- All-zero Generator parameters. -/
noncomputable def GenParams.zero : GenParams :=
  ⟨LayerParams.zero, LayerParams.zero, fun _ => LayerParams.zero,
   fun _ => LayerParams.zero, fun _ => LayerParams.zero, fun _ => LayerParams.zero,
   fun _ => LayerParams.zero, fun _ => LayerParams.zero⟩

/-- Value semantics of `Generator.forward`, line by line as in the source:
fc1, norm1, LeakyReLU, the view to `(B, 512, 4, 4)`, then the six
DeconvBlocks. -/
noncomputable def Generator.forwardVal (g : Generator) (p : GenParams) (x : Tensor) :
    Tensor :=
  let x1 := linearVal g.fc1_in g.fc1_out p.fc1 x
  let x2 := batchNorm1dVal g.norm1 p.norm1 x1
  let x3 := leakyReluVal x2
  let x4 := view_512_4_4_val x3
  let x5 := seqVal g.tconv1 p.tconv1 x4
  let x6 := seqVal g.tconv2 p.tconv2 x5
  let x7 := seqVal g.tconv3 p.tconv3 x6
  let x8 := seqVal g.tconv4 p.tconv4 x7
  let x9 := seqVal g.tconv5 p.tconv5 x8
  seqVal g.tconv6 p.tconv6 x9

/-- The element count of a `(B, 8192)` tensor is `B * 512 * 4 * 4`, so the
view in `Generator.forward` accepts it. -/
lemma view_shape_8192 (B : ℕ) : view_512_4_4_shape [B, 8192] = some [B, 512, 4, 4] := by
  have h : B * 8192 = B * 512 * 4 * 4 := by ring
  simp only [view_512_4_4_shape, List.foldr]
  norm_num [h]

/-- Real tanh is at most 1. -/
lemma tanh_le_one (x : ℝ) : Real.tanh x ≤ 1 := by
  rw [Real.tanh_eq_sinh_div_cosh]
  exact le_of_lt ((div_lt_one (Real.cosh_pos x)).mpr (Real.sinh_lt_cosh x))

/-- Real tanh is at least -1. -/
lemma neg_one_le_tanh (x : ℝ) : -1 ≤ Real.tanh x := by
  have h := tanh_le_one (-x)
  rw [Real.tanh_neg] at h
  linarith

/-- Sigmoid is nonnegative. -/
lemma sigmoid_nonneg (x : ℝ) : 0 ≤ sigmoid x := by
  unfold sigmoid
  positivity

/-- Sigmoid is at most 1. -/
lemma sigmoid_le_one (x : ℝ) : sigmoid x ≤ 1 := by
  unfold sigmoid
  rw [div_le_one (by positivity)]
  linarith [Real.exp_pos (-x)]

/-- A concrete all-zero latent batch of shape `(16, 128)`, the batch size
used by the test harness. -/
noncomputable def zLatent : Tensor := ⟨[16, 128], fun _ => 0⟩

/-- A concrete all-zero image batch of shape `(16, 3, 32, 32)`. -/
noncomputable def xImage : Tensor := ⟨[16, 3, 32, 32], fun _ => 0⟩

/-- C1: the claim says Generator(128) maps a latent batch of shape (B, 128)
[or (B, 128, 1, 1)] to an output of shape (B, 3, 32, 32).  The code does
not: on a (B, 128) input the forward pass returns shape (B, 3, 380, 380),
because the DeconvBlock constructor hardcodes stride 2 and the spatial sizes
grow 4, 10, 22, 46, 94, 190, 380; and on a (B, 128, 1, 1) input the forward
pass fails at fc1.  This contradicts the shape assertion of the test harness
shown failing in the notebook itself. -/
theorem generator_output_shape_diverges (B : ℕ) :
    Generator.forwardShape (Generator.init 128 32) [B, 128] = some [B, 3, 380, 380] ∧
    Generator.forwardShape (Generator.init 128 32) [B, 128, 1, 1] = none := by
  refine ⟨?_, rfl⟩
  show (view_512_4_4_shape [B, 8192]).bind _ = _
  rw [view_shape_8192]
  rfl

/-- C2: for every batch size B and every conv_dim, the discriminator maps an
input of shape (B, 3, 32, 32) to an output of shape (B, 1): the spatial
sizes shrink 32, 29, 14, 6, 2, the flatten yields 256 * 2 * 2 = 1024
features matching Linear(1024, 1), and the sigmoid preserves the shape. -/
theorem discriminator_output_shape (conv_dim B : ℕ) :
    Discriminator.forwardShape conv_dim [B, 3, 32, 32] = some [B, 1] := rfl

/-- C3: for every parameter assignment and every input on which the
generator forward pass succeeds, every element of the output lies in
[-1, 1], because the last DeconvBlock is built without batch norm and
therefore ends in Tanh. -/
theorem generator_output_range (latent_dim conv_dim : ℕ) (p : GenParams) (x : Tensor)
    (h : (Generator.forwardShape (Generator.init latent_dim conv_dim) x.shape).isSome)
    (idx : List ℕ) :
    -1 ≤ (Generator.forwardVal (Generator.init latent_dim conv_dim) p x).val idx ∧
      (Generator.forwardVal (Generator.init latent_dim conv_dim) p x).val idx ≤ 1 := by
  simp only [Generator.forwardVal, Generator.init, DeconvBlock, Bool.false_eq_true,
    if_false, seqVal, layerVal, tanhVal]
  exact ⟨neg_one_le_tanh _, tanh_le_one _⟩

/-- Witness for C3 at the harness input: Generator(128) applied to an
all-zero (16, 128) latent batch with all-zero parameters. -/
theorem generator_output_range_witness :
    -1 ≤ (Generator.forwardVal (Generator.init 128 32) GenParams.zero zLatent).val
        [0, 0, 0, 0] ∧
      (Generator.forwardVal (Generator.init 128 32) GenParams.zero zLatent).val
        [0, 0, 0, 0] ≤ 1 :=
  generator_output_range 128 32 GenParams.zero zLatent (by rfl) [0, 0, 0, 0]

/-- C4: for every parameter assignment and every input on which the
discriminator forward pass succeeds, every element of the output lies in
[0, 1], because the Sequential ends in Sigmoid. -/
theorem discriminator_output_range (conv_dim : ℕ) (env : ℕ → LayerParams) (x : Tensor)
    (h : (Discriminator.forwardShape conv_dim x.shape).isSome) (idx : List ℕ) :
    0 ≤ (Discriminator.forwardVal conv_dim env x).val idx ∧
      (Discriminator.forwardVal conv_dim env x).val idx ≤ 1 := by
  simp only [Discriminator.forwardVal, Discriminator, ConvBlock, if_true,
    Bool.false_eq_true, if_false, List.cons_append, List.nil_append, seqVal, layerVal,
    sigmoidVal]
  exact ⟨sigmoid_nonneg _, sigmoid_le_one _⟩

/-- Witness for C4 at the notebook instantiation Discriminator(64) on an
all-zero (16, 3, 32, 32) batch with all-zero parameters. -/
theorem discriminator_output_range_witness :
    0 ≤ (Discriminator.forwardVal 64 (fun _ => LayerParams.zero) xImage).val [0, 0] ∧
      (Discriminator.forwardVal 64 (fun _ => LayerParams.zero) xImage).val [0, 0] ≤ 1 :=
  discriminator_output_range 64 (fun _ => LayerParams.zero) xImage (by rfl) [0, 0]

/-- C5: the claim says the transpose convolution of a DeconvBlock uses the
stride passed to the constructor.  The code does not: both branches of
DeconvBlock pass the literal 2 as stride to ConvTranspose2d, so the stride
argument has no effect.  At the generator instantiation tconv3 =
DeconvBlock(128, 64, 4, stride 1, padding 0, batch_norm true), a 22 x 22
input comes out 46 x 46 (stride 2) where stride 1 would give 25 x 25,
contradicting the docstring of the stride argument. -/
theorem deconvblock_stride_hardcoded :
    DeconvBlock 128 64 4 1 0 true =
      [.convT2d 128 64 4 2 0, .batchNorm2d 64, .leakyReLU] ∧
    seqShape (DeconvBlock 128 64 4 1 0 true) [16, 128, 22, 22] = some [16, 64, 46, 46] ∧
    convT2dOut 22 4 1 0 = 25 ∧
    (∀ ic oc k s pad : ℕ, ∀ bn : Bool,
      (DeconvBlock ic oc k s pad bn).head? = some (.convT2d ic oc k 2 pad)) := by
  refine ⟨rfl, rfl, rfl, ?_⟩
  intro ic oc k s pad bn
  cases bn <;> rfl

/-- C6: for every batch size B and every conv_dim, feeding Generator(128) a
4-D latent of shape (B, 128, 1, 1) fails at the first fully connected layer
(the last dimension is 1, not the 128 in_features of fc1), and the failure
propagates out of the whole forward pass unhandled. -/
theorem generator_4d_input_shape_error (B conv_dim : ℕ) :
    layerShape (.linear (Generator.init 128 conv_dim).fc1_in
      (Generator.init 128 conv_dim).fc1_out) [B, 128, 1, 1] = none ∧
    Generator.forwardShape (Generator.init 128 conv_dim) [B, 128, 1, 1] = none :=
  ⟨rfl, rfl⟩

/-- C7: every ConvBlock and every DeconvBlock is exactly a convolution (or
transpose convolution), then a batch-norm layer present if and only if the
batch_norm flag is true, then one activation, in that order; the value
semantics of the block is the composition in that order. -/
theorem block_conv_bn_act_order (ic oc k s pad : ℕ) (bn : Bool)
    (env : ℕ → LayerParams) (x : Tensor) :
    ConvBlock ic oc k bn =
      [.conv2d ic oc k (if bn then 2 else 1) 0] ++
        (if bn then [.batchNorm2d oc] else []) ++ [.leakyReLU] ∧
    DeconvBlock ic oc k s pad bn =
      [.convT2d ic oc k 2 pad] ++ (if bn then [.batchNorm2d oc] else []) ++
        [if bn then .leakyReLU else .tanh] ∧
    (LayerSpec.batchNorm2d oc ∈ ConvBlock ic oc k bn ↔ bn = true) ∧
    (LayerSpec.batchNorm2d oc ∈ DeconvBlock ic oc k s pad bn ↔ bn = true) ∧
    seqVal (ConvBlock ic oc k bn) env x =
      (if bn then leakyReluVal (batchNorm2dVal oc (env 1) (conv2dVal ic oc k 2 0 (env 0) x))
       else leakyReluVal (conv2dVal ic oc k 1 0 (env 0) x)) ∧
    seqVal (DeconvBlock ic oc k s pad bn) env x =
      (if bn then leakyReluVal (batchNorm2dVal oc (env 1) (convT2dVal ic oc k 2 pad (env 0) x))
       else tanhVal (convT2dVal ic oc k 2 pad (env 0) x)) := by
  cases bn <;> simp [ConvBlock, DeconvBlock, seqVal, layerVal]

/-- C8: the conv_dim constructor argument is dead in both modules: the
constructed discriminator layer list, the constructed generator module, and
the shape and value semantics of both forward passes are identical for any
two conv_dim values. -/
theorem conv_dim_has_no_effect (latent_dim c1 c2 : ℕ) (env : ℕ → LayerParams)
    (p : GenParams) (x : Tensor) (s : List ℕ) :
    Discriminator c1 = Discriminator c2 ∧
    Generator.init latent_dim c1 = Generator.init latent_dim c2 ∧
    Discriminator.forwardVal c1 env x = Discriminator.forwardVal c2 env x ∧
    Discriminator.forwardShape c1 s = Discriminator.forwardShape c2 s ∧
    Generator.forwardVal (Generator.init latent_dim c1) p x =
      Generator.forwardVal (Generator.init latent_dim c2) p x ∧
    Generator.forwardShape (Generator.init latent_dim c1) s =
      Generator.forwardShape (Generator.init latent_dim c2) s :=
  ⟨rfl, rfl, rfl, rfl, rfl, rfl⟩

/-- C9 counterexample: the claim says the view in Generator.forward never
fails on an input that passes fc1.  A 3-D input of shape (1, 8192, 128)
passes fc1 (Linear acts on the last dimension, giving (1, 8192, 8192)) and
passes norm1 (BatchNorm1d accepts (B, C, L) with C = 8192), yet the view
fails: 1 * 8192 * 8192 elements cannot be reshaped to (1, 512, 4, 4). -/
theorem view_after_fc1_can_fail :
    layerShape (.linear 128 8192) [1, 8192, 128] = some [1, 8192, 8192] ∧
    layerShape (.batchNorm1d 8192) [1, 8192, 8192] = some [1, 8192, 8192] ∧
    view_512_4_4_shape [1, 8192, 8192] = none ∧
    Generator.forwardShape (Generator.init 128 32) [1, 8192, 128] = none :=
  ⟨rfl, rfl, rfl, rfl⟩

/-- C9 amended: restricted to 2-D latent inputs (B, latent_dim) — the only
form Generator.forward is written for — fc1 produces exactly 8192 = 512 * 4
* 4 features per batch element for every latent_dim, and the view reshape
succeeds, for every batch size. -/
theorem view_after_fc1_2d_safe (B L conv_dim : ℕ) :
    (layerShape (.linear (Generator.init L conv_dim).fc1_in
        (Generator.init L conv_dim).fc1_out) [B, L]).bind
      (fun s1 => (layerShape (.batchNorm1d (Generator.init L conv_dim).norm1) s1).bind
        (fun s2 => (layerShape .leakyReLU s2).bind view_512_4_4_shape)) =
      some [B, 512, 4, 4] := by
  simp only [Generator.init]
  simp only [layerShape, List.getLastD, List.dropLast]
  simp [view_shape_8192]

/-- C10: the stride of the convolution in a ConvBlock is a function of the
batch_norm flag alone: stride 2 when the flag is true, the torch default
stride 1 when it is false; in particular the first discriminator block,
built with batch_norm false, convolves with stride 1 and does not
downsample by striding. -/
theorem convblock_stride_from_batch_norm_flag (ic oc k conv_dim : ℕ) :
    ConvBlock ic oc k true = [.conv2d ic oc k 2 0, .batchNorm2d oc, .leakyReLU] ∧
    ConvBlock ic oc k false = [.conv2d ic oc k 1 0, .leakyReLU] ∧
    (Discriminator conv_dim).head? = some (.conv2d 3 32 4 1 0) :=
  ⟨rfl, rfl, rfl⟩
